import Mathlib

/-! Shallow embedding of the payload builder functions found in
    urbanairship/push/payload.py.  Python values, as far as the builders
    inspect them, are modelled by the inductive type PyVal; the documents the
    builders return are insertion-ordered association lists from string keys
    to values, matching the dictionaries the source builds key by key (every
    fixed key is assigned at most once, so each conditional assignment appends
    one entry).  Exceptions are modelled by Except PyErr; in builders where
    the source interleaves dictionary insertion with validation, the returned
    value is computed after the checks, which is observationally equal because
    no check reads the partially built dictionary and the function returns
    only after the last check has passed.  Error message strings elide values
    interpolated by the source. -/

/-- Python runtime values as far as the payload builders inspect them.  The
constructor selfref stands for a reference that points back to the very
mapping that holds it (such an object is cyclic, hence has no finite
structural value); func stands for a module level function object. -/
inductive PyVal where
  | none
  | bool (b : Bool)
  | int (n : Int)
  | str (s : String)
  | list (xs : List PyVal)
  | tuple (xs : List PyVal)
  | dict (entries : List (String × PyVal))
  | func (name : String)
  | selfref

/-- Exceptions raised by the builders, by Python exception class. -/
inductive PyErr where
  | typeError (msg : String)
  | valueError (msg : String)
  | attributeError (msg : String)

/-- Documents built by the builders: insertion-ordered dictionaries with
string keys. -/
abbrev Doc := List (String × PyVal)

/-- Python truthiness, as used by an if statement or a filtering comprehension
over a value. -/
def PyVal.truthy : PyVal → Bool
  | .none => false
  | .bool b => b
  | .int n => n != 0
  | .str s => s != ""
  | .list xs => !xs.isEmpty
  | .tuple xs => !xs.isEmpty
  | .dict es => !es.isEmpty
  | .func _ => true
  | .selfref => true

/-- Truthiness of an optional argument whose Python default is None. -/
def optTruthy : Option PyVal → Bool
  | Option.none => false
  | Option.some v => v.truthy

/-- Test isinstance(v, string type). -/
def PyVal.isStr : PyVal → Bool
  | .str _ => true
  | _ => false

/-- Test isinstance(v, dict). -/
def PyVal.isDict : PyVal → Bool
  | .dict _ => true
  | _ => false

/-- Test isinstance(v, (string type, int)).  A Python bool is an instance of
int, so bool values pass this check. -/
def PyVal.isStrOrInt : PyVal → Bool
  | .str _ => true
  | .int _ => true
  | .bool _ => true
  | _ => false

/-- Test isinstance(v, (string type, int)) on an optional argument; the
default None is not an instance of either class. -/
def optIsStrOrInt : Option PyVal → Bool
  | Option.none => false
  | Option.some v => v.isStrOrInt

/-- Test isinstance(v, collections.Sequence): of the modelled values, exactly
strings, lists and tuples are registered as Sequence. -/
def PyVal.isSequence : PyVal → Bool
  | .str _ => true
  | .list _ => true
  | .tuple _ => true
  | _ => false

/-- Membership of a key in a document, as Python key containment. -/
def Doc.hasKey (d : Doc) (k : String) : Bool :=
  match d with
  | [] => false
  | (k2, _) :: rest => k2 == k || Doc.hasKey rest k

/-- Dictionary read: the value stored under a key, if any. -/
def Doc.get (d : Doc) (k : String) : Option PyVal :=
  match d with
  | [] => Option.none
  | (k2, v) :: rest => if k2 = k then Option.some v else Doc.get rest k

/-- Dictionary assignment d[k] = v: replaces the value in place when the key
is already present (keeping its position, as Python dictionaries do) and
appends a new entry otherwise. -/
def Doc.set (d : Doc) (k : String) (v : PyVal) : Doc :=
  if d.hasKey k then d.map (fun p => if p.1 = k then (k, v) else p)
  else d ++ [(k, v)]

/-- Conditional insertion pattern of the source: if arg is not None then
payload[k] = arg.  Yields the one-entry segment this assignment contributes
to the document. -/
def optInsert (k : String) (o : Option PyVal) : Doc :=
  match o with
  | Option.none => []
  | Option.some v => [(k, v)]

/-- Filtering comprehension used by the table-style builders: keep exactly the
pairs whose value is not None, in order. -/
def dropNones (pairs : List (String × Option PyVal)) : Doc :=
  pairs.filterMap (fun p =>
    match p.2 with
    | Option.some v => Option.some (p.1, v)
    | Option.none => Option.none)

/-- Test whether a character list starts with a pattern, used to model the
Python method startswith on strings. -/
def charsStart : List Char → List Char → Bool
  | _, [] => true
  | [], _ :: _ => false
  | c :: cs, p :: ps => c == p && charsStart cs ps

/-- Model of s.startswith(pat). -/
def strStartsWith (s pat : String) : Bool :=
  charsStart s.data pat.data

/-- Python equality between a value and a string literal: only equal when the
value is that very string. -/
def PyVal.eqPyStr (t : PyVal) (s : String) : Bool :=
  match t with
  | .str s2 => s2 == s
  | _ => false

/-- Count of truthy values, modelling sum(1 for x in xs if x). -/
def truthyCount (xs : List (Option PyVal)) : Nat :=
  (xs.filter optTruthy).length

/-- Fixed-key part of builder notification, lines 44 to 62 of payload.py: one
conditional entry per supplied override, in source order. -/
def notificationBase (alert ios android amazon web wns actions interactive
    in_app : Option PyVal) : Doc :=
  optInsert "alert" alert ++ optInsert "actions" actions ++
  optInsert "ios" ios ++ optInsert "android" android ++
  optInsert "amazon" amazon ++ optInsert "web" web ++
  optInsert "wns" wns ++ optInsert "interactive" interactive ++
  optInsert "in_app" in_app

/-- Loop of lines 63 to 65 of payload.py: when the open platform mapping is
supplied, each of its entries is stored under its name with the marker open::
prepended. -/
def applyOpen (open_platform : Option (List (String × PyVal)))
    (payload : Doc) : Doc :=
  match open_platform with
  | Option.none => payload
  | Option.some entries =>
      entries.foldl (fun d e => Doc.set d ("open::" ++ e.1) e.2) payload

/-- Builder notification, lines 24 to 68 of payload.py: assembles the
top-level document from the optional overrides, flattens the open platform
mapping, and rejects an empty result (the statement if not payload). -/
def notification (alert ios android amazon web wns actions interactive in_app :
    Option PyVal) (open_platform : Option (List (String × PyVal))) :
    Except PyErr Doc :=
  match applyOpen open_platform
      (notificationBase alert ios android amazon web wns actions interactive
        in_app) with
  | [] => Except.error (PyErr.valueError "Notification body may not be empty")
  | x :: rest => Except.ok (x :: rest)

/-- Pattern VALID_AUTOBADGE of line 16, the regular expression matching auto
or a sign character followed by one or more digits, anchored at both ends. -/
def VALID_AUTOBADGE_match (s : String) : Bool :=
  s == "auto" ||
    (match s.data with
     | c :: rest => (c == '+' || c == '-') && !rest.isEmpty && rest.all Char.isDigit
     | [] => false)

/-- Validation on an optional argument: a supplied value fails when the given
predicate holds of it; the default None never fails. -/
def optBad (o : Option PyVal) (p : PyVal → Bool) : Bool :=
  match o with
  | Option.none => false
  | Option.some v => p v

/-- Validations of builder ios in source order: the first failing check
determines the raised exception; None means every check passed. -/
def iosErr (alert badge expiry category title priority collapse_id :
    Option PyVal) : Option PyErr :=
  if optBad alert (fun a => !(a.isStr || a.isDict)) then
    Option.some (PyErr.valueError "iOS alert must be a string or dictionary")
  else if optBad badge (fun b => !b.isStrOrInt) then
    Option.some (PyErr.valueError "iOS badge must be an integer or string")
  else if optBad badge (fun b =>
      match b with
      | PyVal.str s => !VALID_AUTOBADGE_match s
      | _ => false) then
    Option.some (PyErr.valueError "Invalid iOS autobadge value")
  else if optBad expiry (fun e => !e.isStrOrInt) then
    Option.some (PyErr.valueError "iOS expiry must be an integer or string")
  else if optBad category (fun c => !c.isStr) then
    Option.some (PyErr.valueError "iOS category must be a string")
  else if optBad title (fun t => !t.isStr) then
    Option.some (PyErr.valueError "iOS title must be a string")
  else if optBad priority (fun p =>
      match p with
      | PyVal.int n => !(n == 10 || n == 5)
      | _ => true) then
    Option.some (PyErr.valueError "iOS priority must be set to one of 5 or 10.")
  else if optBad collapse_id (fun c => !c.isStr) then
    Option.some (PyErr.valueError "iOS collapse_id must be a string")
  else
    Option.none

/-- Document built by builder ios when every check passes, one conditional
entry per keyword in source order; the content available flag emits the
integer 1 under the hyphenated key. -/
def iosDoc (alert badge sound : Option PyVal) (content_available : Bool)
    (extra expiry interactive category title mutable_content subtitle
     media_attachment priority collapse_id : Option PyVal) : Doc :=
  optInsert "alert" alert ++ optInsert "badge" badge ++
  optInsert "sound" sound ++
  optInsert "content-available"
    (if content_available then Option.some (PyVal.int 1) else Option.none) ++
  optInsert "extra" extra ++ optInsert "expiry" expiry ++
  optInsert "interactive" interactive ++ optInsert "category" category ++
  optInsert "title" title ++ optInsert "mutable_content" mutable_content ++
  optInsert "subtitle" subtitle ++
  optInsert "media_attachment" media_attachment ++
  optInsert "priority" priority ++ optInsert "collapse_id" collapse_id

/-- Builder ios, lines 71 to 162 of payload.py.  The source interleaves the
insertions with the checks; since no check reads the dictionary and the
function returns only after the last line, raising the first failing check
and otherwise returning the completed document is the same function. -/
def ios (alert badge sound : Option PyVal) (content_available : Bool)
    (extra expiry interactive category title mutable_content subtitle
     media_attachment priority collapse_id : Option PyVal) :
    Except PyErr Doc :=
  match iosErr alert badge expiry category title priority collapse_id with
  | Option.some e => Except.error e
  | Option.none =>
      Except.ok (iosDoc alert badge sound content_available extra expiry
        interactive category title mutable_content subtitle media_attachment
        priority collapse_id)

/-- Builder wns payload, lines 457 to 474 of payload.py: the guard counts the
truthy arguments, then each non-None argument contributes its field. -/
def wns_payload (alert toast tile badge : Option PyVal) : Except PyErr Doc :=
  if truthyCount [alert, toast, tile, badge] ≠ 1 then
    Except.error (PyErr.valueError "WNS payload must have one notification type.")
  else
    Except.ok (optInsert "alert" alert ++ optInsert "toast" toast ++
      optInsert "tile" tile ++ optInsert "badge" badge)

/-- Builder in app, lines 527 to 563 of payload.py.  The required arguments
are stored first; the final branch for extra executes the statement that
assigns, under the key extra of the argument mapping itself, a reference to
that same mapping (the payload is left without an extra field).  The result
pairs the returned payload with the post-call state of the extra argument;
the stored back-reference is rendered by the marker selfref. -/
def in_app (alert display_type : PyVal)
    (expiry display actions interactive : Option PyVal)
    (extra : Option Doc) : Doc × Option Doc :=
  let payload : Doc :=
    [("alert", alert), ("display_type", display_type)] ++
    optInsert "expiry" expiry ++ optInsert "display" display ++
    optInsert "actions" actions ++ optInsert "interactive" interactive
  match extra with
  | Option.none => (payload, Option.none)
  | Option.some m => (payload, Option.some (Doc.set m "extra" PyVal.selfref))

/-- Predicate deciding whether a variadic argument list is exactly the single
string all, the special case of device types. -/
def isSingleAll (types : List PyVal) : Bool :=
  match types with
  | [t] => t.eqPyStr "all"
  | _ => false

/-- Test of one device type tag: member of the five platform names, or a
string starting with the open channel marker. -/
def deviceTypeOk (t : PyVal) : Bool :=
  t.eqPyStr "ios" || t.eqPyStr "android" || t.eqPyStr "amazon" ||
  t.eqPyStr "wns" || t.eqPyStr "web" ||
  (match t with
   | PyVal.str s => strStartsWith s "open::"
   | _ => false)

/-- Builder device types, lines 566 to 583 of payload.py.  The source raises
at the first invalid tag; since the message is modelled without the
interpolated tag, checking all tags yields the same function. -/
def device_types (types : List PyVal) : Except PyErr PyVal :=
  if isSingleAll types then Except.ok (PyVal.str "all")
  else if types.all deviceTypeOk then Except.ok (PyVal.list types)
  else Except.error (PyErr.valueError "Invalid device type")

/-- Builder options, lines 586 to 599 of payload.py: the expiry entry is
stored when supplied, then the isinstance check runs unconditionally, so the
default None is rejected too. -/
def options (expiry : Option PyVal) : Except PyErr Doc :=
  let payload : Doc := optInsert "expiry" expiry
  if !optIsStrOrInt expiry then
    Except.error (PyErr.valueError
      "Expiry value must be an integer or time set in UTC as a string")
  else
    Except.ok payload

/-- Per-element check of the categories loop in builder campaigns: a
non-string element raises, then a string of length zero or above 64
raises. -/
def badCategory (c : PyVal) : Option PyErr :=
  match c with
  | PyVal.str s =>
      if s.length = 0 ∨ s.length > 64 then
        Option.some (PyErr.valueError "Invalid category name")
      else Option.none
  | _ => Option.some (PyErr.valueError "Invalid category type")

/-- The categories loop of builder campaigns: the first failing element
determines the exception. -/
def checkCategories (cs : List PyVal) : Option PyErr :=
  match cs with
  | [] => Option.none
  | c :: rest =>
      match badCategory c with
      | Option.some e => Option.some e
      | Option.none => checkCategories rest

/-- Elements the categories loop of builder campaigns iterates over: a string
argument was first wrapped into a one-element list by the source, a list or
tuple contributes its elements; other shapes never reach the loop because the
Sequence check raised earlier. -/
def seqElems (v : PyVal) : List PyVal :=
  match v with
  | PyVal.str s => [PyVal.str s]
  | PyVal.list l => l
  | PyVal.tuple l => l
  | _ => []

/-- Builder campaigns, lines 602 to 626 of payload.py: Sequence check, then a
length bound applied only to list values, then the string wrap, then the
element loop, then the entry holding a fresh list of the elements. -/
def campaigns (categories : Option PyVal) : Except PyErr Doc :=
  match categories with
  | Option.none => Except.ok []
  | Option.some cats =>
      if !cats.isSequence then
        Except.error (PyErr.typeError
          "categories must be a string or list of strings")
      else if (match cats with
               | PyVal.list l => l.isEmpty || l.length > 10
               | _ => false) then
        Except.error (PyErr.valueError
          "Categories list must contain between 1 and 10 items")
      else
        match checkCategories (seqElems cats) with
        | Option.some e => Except.error e
        | Option.none => Except.ok [("categories", PyVal.list (seqElems cats))]

/-- Builder content, lines 770 to 779 of payload.py, verbatim: the dictionary
literal binds title, subtitle, and, under the key options, the module level
function object named options (the parameter body is never used), then pairs
whose value is None are dropped.  The function object is not None, so the
options entry always survives the filter. -/
def content (title subtitle body : Option PyVal) : Doc :=
  dropNones [("title", title), ("subtitle", subtitle),
    ("options", Option.some (PyVal.func "options"))]

/-! Lemmas about document reads over the conditional-insertion segments. -/

theorem get_optInsert_self (k : String) (o : Option PyVal) :
    Doc.get (optInsert k o) k = o := by
  cases o <;> simp [optInsert, Doc.get]

theorem get_optInsert_ne {k2 k : String} (o : Option PyVal) (h : k2 ≠ k) :
    Doc.get (optInsert k2 o) k = Option.none := by
  cases o <;> simp [optInsert, Doc.get, h]

theorem get_skip {k2 k : String} (o : Option PyVal) (rest : Doc) (h : k2 ≠ k) :
    Doc.get (optInsert k2 o ++ rest) k = Doc.get rest k := by
  cases o <;> simp [optInsert, Doc.get, h]

theorem get_take {k : String} (o : Option PyVal) (rest : Doc)
    (h : Doc.get rest k = Option.none) :
    Doc.get (optInsert k o ++ rest) k = o := by
  cases o <;> simp [optInsert, Doc.get, h]

/-- C1: the claim fails on the code at two places.  Builder content called
with only body supplied returns a document that does not contain the body
value at all; instead a spurious options field appears, holding the module
level function object named options, because line 778 of the source writes
the global function options where the body parameter was meant.  And builder
in app called with extra supplied returns a payload without any extra field,
because line 561 stores into the argument instead of the payload. -/
theorem C1_field_presence_bug :
    content Option.none Option.none (Option.some (PyVal.str "x")) =
        [("options", PyVal.func "options")] ∧
    (in_app (PyVal.str "hi") (PyVal.str "banner") Option.none Option.none
        Option.none Option.none (Option.some [("k", PyVal.str "v")])).1 =
      [("alert", PyVal.str "hi"), ("display_type", PyVal.str "banner")] :=
  ⟨rfl, rfl⟩

/-- C2: the claim fails on the code.  Builder in app called with an empty
extra mapping hands back that mapping holding a new entry under the key
extra (a reference to the mapping itself), so the argument is mutated and
differs structurally from its pre-call state, the empty mapping. -/
theorem C2_in_app_mutates_extra :
    (in_app (PyVal.str "hi") (PyVal.str "banner") Option.none Option.none
        Option.none Option.none (Option.some [])).2 =
      Option.some [("extra", PyVal.selfref)] ∧
    Option.some ([] : Doc) ≠ Option.some [("extra", PyVal.selfref)] :=
  ⟨rfl, by simp⟩

/-- C9: device types called with zero arguments returns the empty list and
raises no error. -/
theorem C9_device_types_empty :
    device_types [] = Except.ok (PyVal.list []) := rfl

/-- C3 counterexample: with alert the empty string (supplied and non-None)
and toast a nonempty string, two of the four arguments are supplied, yet the
builder raises nothing and returns a document carrying both fields, because
the source counts truthy values rather than supplied ones. -/
theorem C3_counterexample :
    wns_payload (Option.some (PyVal.str "")) (Option.some (PyVal.str "t"))
        Option.none Option.none =
      Except.ok [("alert", PyVal.str ""), ("toast", PyVal.str "t")] := rfl

/-- C4 counterexample: options with expiry left at its default None raises
the value error rather than returning the empty document, because the
isinstance check runs unconditionally and None is neither a string nor an
integer. -/
theorem C4_counterexample :
    options Option.none = Except.error (PyErr.valueError
      "Expiry value must be an integer or time set in UTC as a string") := rfl

/-- C5 counterexample, refuting two clauses of the claim at explicit concrete
inputs.  First, the empty tuple is a sequence of strings of length zero, so
the claim demands a value error, yet the builder returns a document with an
empty categories list, because the length bound is applied only to list
values.  Second, the singleton list holding the integer 5 is neither a string
nor a sequence of strings, so the claim demands a type error, yet the builder
raises a value error, because only the outer Sequence check raises a type
error while the element loop raises value errors. -/
theorem C5_counterexample :
    campaigns (Option.some (PyVal.tuple [])) =
        Except.ok [("categories", PyVal.list [])] ∧
    campaigns (Option.some (PyVal.list [PyVal.int 5])) =
        Except.error (PyErr.valueError "Invalid category type") :=
  ⟨rfl, rfl⟩

/-- C10: a single string of length 1 to 64 is wrapped into a one-element
list, so the returned document holds a list, not the bare string. -/
theorem C10_campaigns_string (s : String) (h1 : 1 ≤ s.length)
    (h2 : s.length ≤ 64) :
    campaigns (Option.some (PyVal.str s)) =
      Except.ok [("categories", PyVal.list [PyVal.str s])] := by
  have hb : badCategory (PyVal.str s) = Option.none := by
    simp only [badCategory]
    rw [if_neg (by omega)]
  simp [campaigns, seqElems, checkCategories, hb, PyVal.isSequence]

/-- C10 witness: the theorem applied at the concrete string kittens. -/
theorem C10_witness :
    campaigns (Option.some (PyVal.str "kittens")) =
      Except.ok [("categories", PyVal.list [PyVal.str "kittens"])] :=
  C10_campaigns_string "kittens" (by decide) (by decide)

/-- C4 amended: options with expiry left at its default None raises the value
error; a supplied expiry that is neither a string nor an integer raises the
value error; a string or integer expiry yields the document whose only field
is that expiry value. -/
theorem C4_options_amended (expiry : Option PyVal) :
    (optIsStrOrInt expiry = false →
      options expiry = Except.error (PyErr.valueError
        "Expiry value must be an integer or time set in UTC as a string")) ∧
    (∀ v : PyVal, expiry = Option.some v → optIsStrOrInt expiry = true →
      options expiry = Except.ok [("expiry", v)]) := by
  constructor
  · intro h
    simp [options, h]
  · intro v hv h
    subst hv
    simp [options, h, optInsert]

/-- C4 witness: the amended theorem applied at the integer 300 and at the
default None. -/
theorem C4_witness :
    options (Option.some (PyVal.int 300)) =
        Except.ok [("expiry", PyVal.int 300)] ∧
    options Option.none = Except.error (PyErr.valueError
      "Expiry value must be an integer or time set in UTC as a string") :=
  ⟨(C4_options_amended (Option.some (PyVal.int 300))).2 (PyVal.int 300) rfl rfl,
   (C4_options_amended Option.none).1 rfl⟩

/-- C3 amended: wns payload raises the value error exactly when the number of
truthy arguments among alert, toast, tile and badge differs from one; on a
successful return each of the four fields holds exactly the corresponding
non-None argument, so a falsy non-None argument rides along with the single
truthy one into the returned document. -/
theorem C3_wns_payload_truthy (alert toast tile badge : Option PyVal) :
    (wns_payload alert toast tile badge =
        Except.error
          (PyErr.valueError "WNS payload must have one notification type.") ↔
      truthyCount [alert, toast, tile, badge] ≠ 1) ∧
    (∀ d : Doc, wns_payload alert toast tile badge = Except.ok d →
      Doc.get d "alert" = alert ∧ Doc.get d "toast" = toast ∧
      Doc.get d "tile" = tile ∧ Doc.get d "badge" = badge) := by
  constructor
  · by_cases h : truthyCount [alert, toast, tile, badge] = 1
    · simp [wns_payload, h]
    · simp [wns_payload, h]
  · intro d hd
    simp only [wns_payload] at hd
    split at hd
    · exact absurd hd (by simp)
    · injection hd with h2
      subst h2
      simp only [List.append_assoc]
      refine ⟨?_, ?_, ?_, ?_⟩
      · rw [get_take]
        rw [get_skip _ _ (by decide), get_skip _ _ (by decide),
          get_optInsert_ne _ (by decide)]
      · rw [get_skip _ _ (by decide), get_take]
        rw [get_skip _ _ (by decide), get_optInsert_ne _ (by decide)]
      · rw [get_skip _ _ (by decide), get_skip _ _ (by decide), get_take]
        rw [get_optInsert_ne _ (by decide)]
      · rw [get_skip _ _ (by decide), get_skip _ _ (by decide),
          get_skip _ _ (by decide), get_optInsert_self]

/-- C3 witness: the amended theorem applied at one truthy alert alone, and at
four omitted arguments. -/
theorem C3_witness :
    (Doc.get [("alert", PyVal.str "hello")] "alert" =
        Option.some (PyVal.str "hello") ∧
      Doc.get [("alert", PyVal.str "hello")] "toast" = Option.none ∧
      Doc.get [("alert", PyVal.str "hello")] "tile" = Option.none ∧
      Doc.get [("alert", PyVal.str "hello")] "badge" = Option.none) ∧
    wns_payload Option.none Option.none Option.none Option.none =
      Except.error
        (PyErr.valueError "WNS payload must have one notification type.") :=
  ⟨(C3_wns_payload_truthy (Option.some (PyVal.str "hello")) Option.none
      Option.none Option.none).2 [("alert", PyVal.str "hello")] rfl,
   (C3_wns_payload_truthy Option.none Option.none Option.none
      Option.none).1.mpr (by decide)⟩

/-- Lemma: the per-element check of campaigns only ever produces value
errors. -/
theorem badCategory_valueError {c : PyVal} {e : PyErr}
    (h : badCategory c = Option.some e) : ∃ m, e = PyErr.valueError m := by
  unfold badCategory at h
  split at h
  · split at h
    · exact ⟨_, (Option.some.inj h).symm⟩
    · cases h
  · exact ⟨_, (Option.some.inj h).symm⟩

/-- Lemma: the categories loop either passes or stops at a value error. -/
theorem checkCategories_shape (l : List PyVal) :
    checkCategories l = Option.none ∨
      ∃ m, checkCategories l = Option.some (PyErr.valueError m) := by
  induction l with
  | nil => exact Or.inl rfl
  | cons a rest ih =>
    cases hab : badCategory a with
    | none => simpa [checkCategories, hab] using ih
    | some e =>
      obtain ⟨m, rfl⟩ := badCategory_valueError hab
      exact Or.inr ⟨m, by simp [checkCategories, hab]⟩

/-- Lemma: a bad element anywhere in the list makes the categories loop
raise. -/
theorem checkCategories_isSome_of_bad {l : List PyVal} {c : PyVal}
    (hc : c ∈ l) (hb : (badCategory c).isSome = true) :
    (checkCategories l).isSome = true := by
  induction l with
  | nil => cases hc
  | cons a rest ih =>
    rcases List.mem_cons.mp hc with h | h
    · subst h
      cases hab : badCategory c with
      | some e => simp [checkCategories, hab]
      | none => rw [hab] at hb; cases hb
    · cases hab : badCategory a with
      | some e => simp [checkCategories, hab]
      | none => simpa [checkCategories, hab] using ih h

/-- C5 amended: with categories supplied, a value that is not a sequence (a
string, list or tuple) is a type error; a list must have length 1 to 10 or a
value error is raised, but a non-list sequence such as a tuple skips this
length bound; for every supplied sequence that passes the length bound
(lists of length 1 to 10, tuples of any length, and the bare string, which
iterates as its one-element wrap), an element that is not a string, or a
string of length 0 or above 64, causes a value error; and the singleton list
kittens comes back unchanged under the categories key. -/
theorem C5_campaigns_amended :
    (∀ v : PyVal, v.isSequence = false →
      campaigns (Option.some v) = Except.error (PyErr.typeError
        "categories must be a string or list of strings")) ∧
    (∀ l : List PyVal, l = [] ∨ l.length > 10 →
      campaigns (Option.some (PyVal.list l)) = Except.error (PyErr.valueError
        "Categories list must contain between 1 and 10 items")) ∧
    (∀ v : PyVal, v.isSequence = true →
      (∀ l : List PyVal, v = PyVal.list l → 1 ≤ l.length ∧ l.length ≤ 10) →
      (∃ c ∈ seqElems v, (badCategory c).isSome = true) →
      ∃ m, campaigns (Option.some v) =
        Except.error (PyErr.valueError m)) ∧
    campaigns (Option.some (PyVal.list [PyVal.str "kittens"])) =
      Except.ok [("categories", PyVal.list [PyVal.str "kittens"])] := by
  refine ⟨?_, ?_, ?_, rfl⟩
  · intro v hv
    simp [campaigns, hv]
  · intro l hl
    have hcond : (l.isEmpty || decide (l.length > 10)) = true := by
      rcases hl with rfl | h
      · simp
      · simp [h]
    simp [campaigns, PyVal.isSequence, hcond]
  · rintro v hseq hlen ⟨c, hcl, hbc⟩
    have hsome := checkCategories_isSome_of_bad hcl hbc
    rcases checkCategories_shape (seqElems v) with hn | ⟨m, hm⟩
    · rw [hn] at hsome; cases hsome
    · refine ⟨m, ?_⟩
      cases v with
      | str s =>
        simp only [seqElems] at hm
        simp [campaigns, PyVal.isSequence, seqElems, hm]
      | tuple l =>
        simp only [seqElems] at hm
        simp [campaigns, PyVal.isSequence, seqElems, hm]
      | list l =>
        obtain ⟨h1, h2⟩ := hlen l rfl
        have hie : l.isEmpty = false := by
          cases l with
          | nil => simp at h1
          | cons a t => rfl
        have hgt : decide (l.length > 10) = false := by
          simp only [decide_eq_false_iff_not]
          omega
        simp only [seqElems] at hm
        simp [campaigns, PyVal.isSequence, hie, hgt, seqElems, hm]
      | none => simp [PyVal.isSequence] at hseq
      | bool b => simp [PyVal.isSequence] at hseq
      | int n => simp [PyVal.isSequence] at hseq
      | dict es => simp [PyVal.isSequence] at hseq
      | func nm => simp [PyVal.isSequence] at hseq
      | selfref => simp [PyVal.isSequence] at hseq

/-- C5 witness: the amended theorem applied at an integer, at the empty list,
at a tuple holding an integer element, at the empty bare string, and at a
list holding an integer element. -/
theorem C5_witness :
    campaigns (Option.some (PyVal.int 3)) = Except.error (PyErr.typeError
      "categories must be a string or list of strings") ∧
    campaigns (Option.some (PyVal.list [])) = Except.error (PyErr.valueError
      "Categories list must contain between 1 and 10 items") ∧
    (∃ m, campaigns (Option.some (PyVal.tuple [PyVal.int 5])) =
      Except.error (PyErr.valueError m)) ∧
    (∃ m, campaigns (Option.some (PyVal.str "")) =
      Except.error (PyErr.valueError m)) ∧
    (∃ m, campaigns (Option.some (PyVal.list [PyVal.int 5])) =
      Except.error (PyErr.valueError m)) :=
  ⟨C5_campaigns_amended.1 (PyVal.int 3) rfl,
   C5_campaigns_amended.2.1 [] (Or.inl rfl),
   C5_campaigns_amended.2.2.1 (PyVal.tuple [PyVal.int 5]) rfl
     (fun l h => PyVal.noConfusion h)
     ⟨PyVal.int 5, List.mem_singleton.mpr rfl, rfl⟩,
   C5_campaigns_amended.2.2.1 (PyVal.str "") rfl
     (fun l h => PyVal.noConfusion h)
     ⟨PyVal.str "", List.mem_singleton.mpr rfl, rfl⟩,
   C5_campaigns_amended.2.2.1 (PyVal.list [PyVal.int 5]) rfl
     (fun l h => by cases h; exact ⟨by decide, by decide⟩)
     ⟨PyVal.int 5, List.mem_singleton.mpr rfl, rfl⟩⟩

/-- Lemma: a string tag passes the device type test exactly when it is one of
the five platform names or starts with the open channel marker. -/
theorem deviceTypeOk_str (t : String) :
    deviceTypeOk (PyVal.str t) = true ↔
      (t ∈ ["ios", "android", "amazon", "wns", "web"] ∨
       strStartsWith t "open::" = true) := by
  simp [deviceTypeOk, PyVal.eqPyStr]
  tauto

/-- C6: device types called with the single tag all returns the scalar all;
a list of string tags each among the five platforms or starting with the
open channel marker returns exactly those tags in order; any other list of
string tags (besides the singleton all) containing an invalid tag raises the
value error. -/
theorem C6_device_types (ts : List String) :
    (device_types [PyVal.str "all"] = Except.ok (PyVal.str "all")) ∧
    ((∀ t ∈ ts, t ∈ ["ios", "android", "amazon", "wns", "web"] ∨
        strStartsWith t "open::" = true) →
      device_types (ts.map PyVal.str) =
        Except.ok (PyVal.list (ts.map PyVal.str))) ∧
    (ts ≠ ["all"] →
      (∃ t ∈ ts, ¬(t ∈ ["ios", "android", "amazon", "wns", "web"] ∨
        strStartsWith t "open::" = true)) →
      device_types (ts.map PyVal.str) =
        Except.error (PyErr.valueError "Invalid device type")) := by
  refine ⟨rfl, ?_, ?_⟩
  · intro hv
    have hsa : isSingleAll (ts.map PyVal.str) = false := by
      cases ts with
      | nil => rfl
      | cons a rest =>
        cases rest with
        | cons b r2 => rfl
        | nil =>
          have ha := hv a (by simp)
          simp only [List.map_cons, List.map_nil, isSingleAll, PyVal.eqPyStr]
          rw [beq_eq_false_iff_ne]
          rintro rfl
          rcases ha with h | h
          · exact absurd h (by decide)
          · exact absurd h (by decide)
    have hall : (ts.map PyVal.str).all deviceTypeOk = true := by
      rw [List.all_eq_true]
      intro x hx
      obtain ⟨t, ht, rfl⟩ := List.mem_map.mp hx
      exact (deviceTypeOk_str t).mpr (hv t ht)
    simp [device_types, hsa, hall]
  · rintro hne ⟨t, ht, hbad⟩
    have hsa : isSingleAll (ts.map PyVal.str) = false := by
      cases ts with
      | nil => rfl
      | cons a rest =>
        cases rest with
        | cons b r2 => rfl
        | nil =>
          simp only [List.map_cons, List.map_nil, isSingleAll, PyVal.eqPyStr]
          rw [beq_eq_false_iff_ne]
          rintro rfl
          exact hne rfl
    have hall : (ts.map PyVal.str).all deviceTypeOk = false := by
      by_contra hc
      rw [Bool.not_eq_false] at hc
      have := List.all_eq_true.mp hc (PyVal.str t) (List.mem_map.mpr ⟨t, ht, rfl⟩)
      exact hbad ((deviceTypeOk_str t).mp this)
    simp [device_types, hsa, hall]

/-- C6 witness: the theorem applied at the pair ios and wns, and at the pair
ios and symbian. -/
theorem C6_witness :
    device_types [PyVal.str "ios", PyVal.str "wns"] =
        Except.ok (PyVal.list [PyVal.str "ios", PyVal.str "wns"]) ∧
    device_types [PyVal.str "ios", PyVal.str "symbian"] =
        Except.error (PyErr.valueError "Invalid device type") :=
  ⟨(C6_device_types ["ios", "wns"]).2.1 (by decide),
   (C6_device_types ["ios", "symbian"]).2.2 (by decide)
     ⟨"symbian", by decide, by decide⟩⟩

/-- Lemma: a conditional insertion contributes nothing exactly when the
argument was omitted. -/
theorem optInsert_eq_nil (k : String) (o : Option PyVal) :
    optInsert k o = [] ↔ o = Option.none := by
  cases o <;> simp [optInsert]

/-- Lemma: the fixed-key part of notification is empty exactly when all nine
overrides were omitted. -/
theorem notificationBase_eq_nil (alert ios android amazon web wns actions
    interactive in_app : Option PyVal) :
    notificationBase alert ios android amazon web wns actions interactive
        in_app = [] ↔
      (alert = Option.none ∧ ios = Option.none ∧ android = Option.none ∧
       amazon = Option.none ∧ web = Option.none ∧ wns = Option.none ∧
       actions = Option.none ∧ interactive = Option.none ∧
       in_app = Option.none) := by
  simp only [notificationBase, List.append_eq_nil, optInsert_eq_nil]
  tauto

/-- Lemma: dictionary assignment never empties a dictionary. -/
theorem Doc.set_ne_nil (d : Doc) (k : String) (v : PyVal) :
    Doc.set d k v ≠ [] := by
  by_cases hk : d.hasKey k
  · simp only [Doc.set, hk, if_true]
    intro hmap
    rw [List.map_eq_nil_iff] at hmap
    subst hmap
    simp [Doc.hasKey] at hk
  · simp [Doc.set, hk]

/-- Lemma: folding the open platform assignments empties the dictionary
exactly when it started empty and there was nothing to assign. -/
theorem foldl_set_eq_nil_iff (entries : List (String × PyVal)) (d : Doc) :
    entries.foldl (fun acc e => Doc.set acc ("open::" ++ e.1) e.2) d = [] ↔
      d = [] ∧ entries = [] := by
  induction entries generalizing d with
  | nil => simp
  | cons e rest ih =>
    simp only [List.foldl_cons]
    rw [ih]
    simp [Doc.set_ne_nil]

/-- Lemma: the flattening step of notification yields an empty document
exactly when the fixed part is empty and the open platform mapping is absent
or empty. -/
theorem applyOpen_eq_nil (open_platform : Option (List (String × PyVal)))
    (d : Doc) :
    applyOpen open_platform d = [] ↔
      (d = [] ∧ (open_platform = Option.none ∨
        open_platform = Option.some [])) := by
  cases open_platform with
  | none => simp [applyOpen]
  | some entries => simp [applyOpen, foldl_set_eq_nil_iff]

/-- Lemma: replacing the value under a present key keeps an entry carrying
the new value in the dictionary. -/
theorem mem_map_replace (d : Doc) (k : String) (v : PyVal)
    (h : Doc.hasKey d k = true) :
    (k, v) ∈ d.map (fun p => if p.1 = k then (k, v) else p) := by
  induction d with
  | nil => cases h
  | cons p rest ih =>
    by_cases hp : p.1 = k
    · simp only [List.map_cons, if_pos hp]
      exact List.mem_cons_self _ _
    · simp only [Doc.hasKey] at h
      rw [beq_eq_false_iff_ne.mpr hp] at h
      simp only [Bool.false_or] at h
      simp only [List.map_cons, if_neg hp]
      exact List.mem_cons_of_mem _ (ih h)

/-- Lemma: after the assignment d[k] = v, the dictionary holds the entry
binding k to v. -/
theorem mem_set_self (d : Doc) (k : String) (v : PyVal) :
    (k, v) ∈ Doc.set d k v := by
  cases hk : Doc.hasKey d k with
  | true => simpa [Doc.set, hk] using mem_map_replace d k v hk
  | false => simp [Doc.set, hk]

/-- Lemma: an assignment under a different key preserves an entry. -/
theorem mem_set_of_ne {d : Doc} {k : String} {v : PyVal} (k2 : String)
    (v2 : PyVal) (h : (k, v) ∈ d) (hne : k ≠ k2) :
    (k, v) ∈ Doc.set d k2 v2 := by
  unfold Doc.set
  split
  · exact List.mem_map.mpr ⟨(k, v), h, by simp [hne]⟩
  · exact List.mem_append_left _ h

/-- Lemma: prepending the open channel marker is injective. -/
theorem open_key_cancel {a b : String}
    (h : ("open::" ++ a : String) = "open::" ++ b) : a = b := by
  have hd : ("open::" ++ a : String).data = ("open::" ++ b : String).data :=
    congrArg String.data h
  rw [String.data_append, String.data_append] at hd
  exact String.ext (List.append_cancel_left hd)

/-- Lemma: an entry survives the remaining open platform assignments when
none of them reuses its key. -/
theorem mem_foldl_set (l : List (String × PyVal)) (k : String) (v : PyVal) :
    ∀ d : Doc, (k, v) ∈ d → (∀ q ∈ l, ("open::" ++ q.1 : String) ≠ k) →
      (k, v) ∈ l.foldl (fun acc e => Doc.set acc ("open::" ++ e.1) e.2) d := by
  induction l with
  | nil => intro d h _; exact h
  | cons q rest ih =>
    intro d h hk
    simp only [List.foldl_cons]
    exact ih _
      (mem_set_of_ne _ _ h (Ne.symm (hk q (List.mem_cons_self _ _))))
      (fun q2 hq2 => hk q2 (List.mem_cons_of_mem _ hq2))

/-- Lemma: when the open platform names are pairwise distinct, every entry of
the mapping ends up in the folded document under its prefixed key. -/
theorem mem_foldl_set_of_mem (l : List (String × PyVal)) :
    ∀ d : Doc, (l.map Prod.fst).Nodup → ∀ e ∈ l,
      ("open::" ++ e.1, e.2) ∈
        l.foldl (fun acc p => Doc.set acc ("open::" ++ p.1) p.2) d := by
  induction l with
  | nil => intro d _ e he; cases he
  | cons q rest ih =>
    intro d hnd e he
    simp only [List.map_cons] at hnd
    rcases List.mem_cons.mp he with rfl | he2
    · simp only [List.foldl_cons]
      apply mem_foldl_set
      · exact mem_set_self _ _ _
      · intro q2 hq2 heq
        have h1 : q2.1 = e.1 := open_key_cancel heq
        exact (List.nodup_cons.mp hnd).1
          (h1 ▸ List.mem_map.mpr ⟨q2, hq2, rfl⟩)
    · simp only [List.foldl_cons]
      exact ih _ (List.nodup_cons.mp hnd).2 e he2

/-- C7: notification raises the value error exactly when the assembled
document is empty, that is when all nine overrides are omitted and the open
platform mapping is absent or empty; otherwise it returns a nonempty
document in which, for pairwise distinct subchannel names, every supplied
open platform entry appears under its name with the marker open::
prepended. -/
theorem C7_notification (alert ios android amazon web wns actions interactive
    in_app : Option PyVal) (open_platform : Option (List (String × PyVal))) :
    (notification alert ios android amazon web wns actions interactive in_app
        open_platform =
      Except.error (PyErr.valueError "Notification body may not be empty") ↔
      (alert = Option.none ∧ ios = Option.none ∧ android = Option.none ∧
       amazon = Option.none ∧ web = Option.none ∧ wns = Option.none ∧
       actions = Option.none ∧ interactive = Option.none ∧
       in_app = Option.none ∧
       (open_platform = Option.none ∨ open_platform = Option.some []))) ∧
    (∀ d : Doc, notification alert ios android amazon web wns actions
        interactive in_app open_platform = Except.ok d →
      d ≠ [] ∧
      ∀ entries, open_platform = Option.some entries →
        (entries.map Prod.fst).Nodup →
        ∀ e ∈ entries, ("open::" ++ e.1, e.2) ∈ d) := by
  constructor
  · constructor
    · intro herr
      cases hA : applyOpen open_platform (notificationBase alert ios android
          amazon web wns actions interactive in_app) with
      | nil =>
        obtain ⟨hb, hop⟩ := (applyOpen_eq_nil _ _).mp hA
        obtain ⟨h1, h2, h3, h4, h5, h6, h7, h8, h9⟩ :=
          (notificationBase_eq_nil _ _ _ _ _ _ _ _ _).mp hb
        exact ⟨h1, h2, h3, h4, h5, h6, h7, h8, h9, hop⟩
      | cons x rest =>
        rw [notification, hA] at herr
        exact absurd herr (by simp)
    · rintro ⟨h1, h2, h3, h4, h5, h6, h7, h8, h9, hop⟩
      subst h1; subst h2; subst h3; subst h4; subst h5; subst h6
      subst h7; subst h8; subst h9
      have hb : notificationBase Option.none Option.none Option.none
          Option.none Option.none Option.none Option.none Option.none
          Option.none = [] := rfl
      have hA : applyOpen open_platform (notificationBase Option.none
          Option.none Option.none Option.none Option.none Option.none
          Option.none Option.none Option.none) = [] := by
        rw [applyOpen_eq_nil]
        exact ⟨hb, hop⟩
      rw [notification, hA]
  · intro d hd
    cases hA : applyOpen open_platform (notificationBase alert ios android
        amazon web wns actions interactive in_app) with
    | nil =>
      rw [notification, hA] at hd
      exact absurd hd (by simp)
    | cons x rest =>
      rw [notification, hA] at hd
      have hdd : x :: rest = d := Except.ok.inj hd
      constructor
      · rw [← hdd]
        simp
      · intro entries hop hnd e he
        have hmem : ("open::" ++ e.1, e.2) ∈ applyOpen open_platform
            (notificationBase alert ios android amazon web wns actions
              interactive in_app) := by
          rw [hop]
          exact mem_foldl_set_of_mem entries _ hnd e he
        rw [hA, hdd] at hmem
        exact hmem

/-- C7 witness: the theorem applied at all arguments omitted, and at a call
carrying an alert and one open platform entry named sms. -/
theorem C7_witness :
    notification Option.none Option.none Option.none Option.none Option.none
        Option.none Option.none Option.none Option.none Option.none =
      Except.error (PyErr.valueError "Notification body may not be empty") ∧
    ([("alert", PyVal.str "hi"), ("open::sms", PyVal.str "s")] : Doc) ≠ [] ∧
    ("open::" ++ "sms", PyVal.str "s") ∈
      ([("alert", PyVal.str "hi"), ("open::sms", PyVal.str "s")] : Doc) :=
  ⟨(C7_notification Option.none Option.none Option.none Option.none
      Option.none Option.none Option.none Option.none Option.none
      Option.none).1.mpr
      ⟨rfl, rfl, rfl, rfl, rfl, rfl, rfl, rfl, rfl, Or.inl rfl⟩,
   ((C7_notification (Option.some (PyVal.str "hi")) Option.none Option.none
      Option.none Option.none Option.none Option.none Option.none Option.none
      (Option.some [("sms", PyVal.str "s")])).2
      [("alert", PyVal.str "hi"), ("open::sms", PyVal.str "s")] rfl).1,
   ((C7_notification (Option.some (PyVal.str "hi")) Option.none Option.none
      Option.none Option.none Option.none Option.none Option.none Option.none
      (Option.some [("sms", PyVal.str "s")])).2
      [("alert", PyVal.str "hi"), ("open::sms", PyVal.str "s")] rfl).2
      [("sms", PyVal.str "s")] rfl (by simp) ("sms", PyVal.str "s")
      (List.mem_singleton.mpr rfl)⟩

/-- C8: whenever builder ios returns a document, content available true puts
the integer 1 under the hyphenated key content-available while the keyword
spelling content underscore available never occurs as a key, and content
available false (the default) leaves both spellings absent. -/
theorem C8_ios_content_available (alert badge sound : Option PyVal)
    (content_available : Bool)
    (extra expiry interactive category title mutable_content subtitle
     media_attachment priority collapse_id : Option PyVal) (d : Doc)
    (h : ios alert badge sound content_available extra expiry interactive
        category title mutable_content subtitle media_attachment priority
        collapse_id = Except.ok d) :
    (content_available = true →
      Doc.get d "content-available" = Option.some (PyVal.int 1) ∧
      Doc.get d "content_available" = Option.none) ∧
    (content_available = false →
      Doc.get d "content-available" = Option.none ∧
      Doc.get d "content_available" = Option.none) := by
  have hd : d = iosDoc alert badge sound content_available extra expiry
      interactive category title mutable_content subtitle media_attachment
      priority collapse_id := by
    cases he : iosErr alert badge expiry category title priority collapse_id with
    | some e => rw [ios, he] at h; exact absurd h (by simp)
    | none => rw [ios, he] at h; exact (Except.ok.inj h).symm
  subst hd
  unfold iosDoc
  simp only [List.append_assoc]
  constructor
  · intro hca
    subst hca
    refine ⟨?_, ?_⟩
    · rw [get_skip _ _ (by decide), get_skip _ _ (by decide),
        get_skip _ _ (by decide)]
      rw [get_take]
      · rfl
      · repeat rw [get_skip _ _ (by decide)]
        rw [get_optInsert_ne _ (by decide)]
    · repeat rw [get_skip _ _ (by decide)]
      rw [get_optInsert_ne _ (by decide)]
  · intro hca
    subst hca
    refine ⟨?_, ?_⟩
    · rw [get_skip _ _ (by decide), get_skip _ _ (by decide),
        get_skip _ _ (by decide)]
      rw [get_take]
      · rfl
      · repeat rw [get_skip _ _ (by decide)]
        rw [get_optInsert_ne _ (by decide)]
    · repeat rw [get_skip _ _ (by decide)]
      rw [get_optInsert_ne _ (by decide)]

/-- C8 witness: the theorem applied at a call supplying an alert with content
available true, whose returned document is computed literally. -/
theorem C8_witness :
    Doc.get [("alert", PyVal.str "hi"), ("content-available", PyVal.int 1)]
        "content-available" = Option.some (PyVal.int 1) ∧
    Doc.get [("alert", PyVal.str "hi"), ("content-available", PyVal.int 1)]
        "content_available" = Option.none :=
  (C8_ios_content_available (Option.some (PyVal.str "hi")) Option.none
    Option.none true Option.none Option.none Option.none Option.none
    Option.none Option.none Option.none Option.none Option.none Option.none
    [("alert", PyVal.str "hi"), ("content-available", PyVal.int 1)] rfl).1 rfl
